import Mathlib

/-!
Shallow embedding of the compliance rule evaluation engine of `src/main.py`
(the `/analyze` endpoint): the hardcoded permit checklist, the per-rule
regex search over the lower-cased extracted text, and the aggregation into
a pass rate and a failure list.

Document text is modelled as a list of Unicode code points (`List Nat`).
Python regexes are modelled by a small regex language covering exactly the
constructs the checklist patterns use (literals, `.`, `.*`, alternation,
character classes, `\s`), with matching by Brzozowski derivatives;
`re.search` is "match starting at any position".
-/

/-- Code points Python's `\s` matches in a `str` pattern. -/
def pyWhitespace : List Nat :=
  [9, 10, 11, 12, 13, 28, 29, 30, 31, 32, 133, 160, 5760,
   8192, 8193, 8194, 8195, 8196, 8197, 8198, 8199, 8200, 8201, 8202,
   8232, 8233, 8239, 8287, 12288]

/-- Regex abstract syntax: the constructs used by the checklist patterns.
`dot` is Python `.` without DOTALL (any character except newline),
`cls` a character class such as `[:/]`, `white` is `\s`. -/
inductive Regex where
  | fail : Regex
  | eps : Regex
  | ch (c : Nat) : Regex
  | dot : Regex
  | cls (cs : List Nat) : Regex
  | white : Regex
  | seq (r1 r2 : Regex) : Regex
  | alt (r1 r2 : Regex) : Regex
  | star (r : Regex) : Regex
deriving DecidableEq

/-- Does the regex accept the empty string? -/
def nullable : Regex → Bool
  | .fail => false
  | .eps => true
  | .ch _ => false
  | .dot => false
  | .cls _ => false
  | .white => false
  | .seq a b => nullable a && nullable b
  | .alt a b => nullable a || nullable b
  | .star _ => true

/-- Brzozowski derivative with respect to one code point. -/
def derive : Regex → Nat → Regex
  | .fail, _ => .fail
  | .eps, _ => .fail
  | .ch c, x => if x = c then .eps else .fail
  | .dot, x => if x = 10 then .fail else .eps
  | .cls cs, x => if cs.contains x then .eps else .fail
  | .white, x => if pyWhitespace.contains x then .eps else .fail
  | .seq a b, x =>
      if nullable a then .alt (.seq (derive a x) b) (derive b x)
      else .seq (derive a x) b
  | .alt a b, x => .alt (derive a x) (derive b x)
  | .star r, x => .seq (derive r x) (.star r)

/-- Does the regex match some prefix of the text (a match anchored here)? -/
def matchHere (r : Regex) : List Nat → Bool
  | [] => nullable r
  | c :: s => nullable r || matchHere (derive r c) s

/-- Python `re.search`: does the regex match starting at any position? -/
def reSearch (r : Regex) : List Nat → Bool
  | [] => nullable r
  | c :: s => matchHere r (c :: s) || reSearch r s

/-- A string literal as a regex (sequence of single characters). -/
def litRe : List Nat → Regex
  | [] => .eps
  | c :: cs => .seq (.ch c) (litRe cs)

/-- Code points of a Lean string literal. -/
def s2n (s : String) : List Nat := s.data.map Char.toNat

/-- Line 92 `pdf_text.lower()`, per code point. Python's `str.lower` also
lowercases non-ASCII letters; the checklist patterns are pure ASCII, so the
embedding maps the ASCII range and leaves other code points unchanged. -/
def lowerChar (c : Nat) : Nat := if 65 ≤ c ∧ c ≤ 90 then c + 32 else c

def lowerText (t : List Nat) : List Nat := t.map lowerChar

/-- One entry of the hardcoded checklist (lines 95-106). -/
structure Rule where
  code : String
  criteria : String
  regex : Regex
deriving DecidableEq

/-- One entry of `failed_checks` (line 114). -/
structure Failure where
  code : String
  description : String
deriving DecidableEq

def mkFailure (r : Rule) : Failure :=
  ⟨r.code, "Missing or non-compliant: " ++ r.criteria⟩

/- The ten detector patterns, transcribed from lines 96-105. -/

/-- `door.*(900|1\.0|1000)` -/
def e6Re : Regex :=
  .seq (litRe (s2n "door")) (.seq (.star .dot)
    (.alt (litRe (s2n "900")) (.alt (litRe (s2n "1.0")) (litRe (s2n "1000")))))

/-- `ramp.*(1[:/]\s*12|8\s*%)` -/
def lcr2Re : Regex :=
  .seq (litRe (s2n "ramp")) (.seq (.star .dot)
    (.alt (.seq (.ch 49) (.seq (.cls [58, 47]) (.seq (.star .white) (litRe (s2n "12")))))
          (.seq (.ch 56) (.seq (.star .white) (.ch 37)))))

/-- `path.*(1800|1\.8)` -/
def pe1Re : Regex :=
  .seq (litRe (s2n "path")) (.seq (.star .dot)
    (.alt (litRe (s2n "1800")) (litRe (s2n "1.8"))))

/-- `toilet|wc|accessible` -/
def spptRe : Regex :=
  .alt (litRe (s2n "toilet")) (.alt (litRe (s2n "wc")) (litRe (s2n "accessible")))

/-- `parking.*(50|fifty)` -/
def pa1Re : Regex :=
  .seq (litRe (s2n "parking")) (.seq (.star .dot)
    (.alt (litRe (s2n "50")) (litRe (s2n "fifty"))))

/-- `handrail.*(900|1\.0|1000)` -/
def gd3Re : Regex :=
  .seq (litRe (s2n "handrail")) (.seq (.star .dot)
    (.alt (litRe (s2n "900")) (.alt (litRe (s2n "1.0")) (litRe (s2n "1000")))))

/-- `stair.*(1200|1\.2)` -/
def gsRe : Regex :=
  .seq (litRe (s2n "stair")) (.seq (.star .dot)
    (.alt (litRe (s2n "1200")) (litRe (s2n "1.2"))))

/-- `level.*change` -/
def pe7Re : Regex :=
  .seq (litRe (s2n "level")) (.seq (.star .dot) (litRe (s2n "change")))

/-- `shower.*(1500|1\.5)` -/
def spshRe : Regex :=
  .seq (litRe (s2n "shower")) (.seq (.star .dot)
    (.alt (litRe (s2n "1500")) (litRe (s2n "1.5"))))

/-- `guardrail.*(1100|1\.1)` -/
def lch1Re : Regex :=
  .seq (litRe (s2n "guardrail")) (.seq (.star .dot)
    (.alt (litRe (s2n "1100")) (litRe (s2n "1.1"))))

/-- The simulated permit checklist, lines 95-106, in source order. -/
def checklist : List Rule :=
  [⟨"E6", "door width ≥ 900mm", e6Re⟩,
   ⟨"LCR2", "ramp slope ≤ 8%", lcr2Re⟩,
   ⟨"PE1", "path width ≥ 1800mm", pe1Re⟩,
   ⟨"SPpt", "accessible toilet available", spptRe⟩,
   ⟨"PA1", "parking within 50m", pa1Re⟩,
   ⟨"GD3", "handrail height ≥ 900mm", gd3Re⟩,
   ⟨"GS", "stair width ≥ 1200mm", gsRe⟩,
   ⟨"PE7", "no abrupt level changes", pe7Re⟩,
   ⟨"SPsh", "shower turning radius ≥1500mm", spshRe⟩,
   ⟨"LCH1", "guardrail height ≥1100mm", lch1Re⟩]

/-- The evaluation loop of lines 108-114: count matches, collect failures
in registry order. -/
def evalRules (text : List Nat) : List Rule → Nat × List Failure
  | [] => (0, [])
  | r :: rs =>
    let rest := evalRules text rs
    if reSearch r.regex text then (rest.1 + 1, rest.2)
    else (rest.1, mkFailure r :: rest.2)

/-!
Line 117, `pass_rate = int((passed / total) * 100)`, computes in IEEE-754
binary64: true division `passed / total` is correctly rounded, so is the
product with 100, and `int` truncates toward zero. The embedding models
this exactly over the naturals: a positive binary64 value is a pair
`(m, e)` denoting `m / 2 ^ e` with significand `m` of at most 53 bits, and
rounding is round-to-nearest, ties to even significand. The values that
arise here (quotients in (0, 1] and their products with 100) are far from
the subnormal and overflow ranges, so this normal-range model is exact.
-/

/-- Smallest `e` (at most `fuel` more than the accumulator) such that
`2 ^ 52 * b ≤ a * 2 ^ e`: scales `a / b` into the significand range. -/
def findExpAux : Nat → Nat → Nat → Nat → Nat
  | 0, _, _, e => e
  | fuel + 1, a, b, e =>
      if 2 ^ 52 * b ≤ a * 2 ^ e then e else findExpAux fuel a b (e + 1)

/-- Round the positive rational `a / b` to the nearest binary64 value,
returned as `(m, e)` denoting `m / 2 ^ e`; ties go to the even significand.
128 scaling steps cover every value this program can produce. -/
def roundF (a b : Nat) : Nat × Nat :=
  let e := findExpAux 128 a b 0
  let n := a * 2 ^ e
  let q := n / b
  let r := n % b
  let m :=
    if 2 * r < b then q
    else if b < 2 * r then q + 1
    else if q % 2 = 0 then q else q + 1
  (m, e)

/-- Line 117: `int((passed / total) * 100)` in binary64 arithmetic.
`none` models the ZeroDivisionError on an empty registry; `0 / total` is
the exact float 0.0 and 0.0 * 100 is exactly 0. -/
def pass_rate (passed total : Nat) : Option Nat :=
  if total = 0 then none
  else if passed = 0 then some 0
  else
    let d := roundF passed total
    let p := roundF (100 * d.1) (2 ^ d.2)
    some (p.1 / 2 ^ p.2)

/-- The response of `/analyze`: either the compliance report of lines
119-123 or the error shape of lines 83 and 126. -/
inductive Response where
  | ok (pass_rate : Nat) (failed : List Failure) : Response
  | error (message : String) : Response
deriving DecidableEq

/-- Lines 92-123: lower-case the extracted text, run the checklist,
aggregate. The ZeroDivisionError branch is unreachable (the checklist has
ten rules) but kept so the division is modelled honestly. -/
def analyzeText (text : List Nat) : Response :=
  let t := lowerText text
  let res := evalRules t checklist
  match pass_rate res.1 checklist.length with
  | none => Response.error "division by zero"
  | some rate => Response.ok rate res.2

/-- Lines 79-126 of the `/analyze` handler. `file_data` is the payload's
`file_data` field (absent ⇒ `none`; Python's `if not file_data` also
rejects the empty string). `extract` abstracts base64 decoding plus
pdfplumber text extraction (lines 86-90); an exception there is
`Except.error msg`, caught at line 125 and returned as the error shape. -/
def analyze (file_data : Option String)
    (extract : String → Except String (List Nat)) : Response :=
  match file_data with
  | none => Response.error "No file data received."
  | some s =>
    if s = "" then Response.error "No file data received."
    else
      match extract s with
      | .error m => Response.error m
      | .ok text => analyzeText text

/-- Substring test: does `w` occur contiguously inside `s`? Used to state
which documents trigger a detector that is a plain alternation of literals. -/
def containsSub (w : List Nat) : List Nat → Bool
  | [] => w.isEmpty
  | c :: s => w.isPrefixOf (c :: s) || containsSub w s

/-- A rule whose detector matches the first character of the text. -/
def ruleA : Rule := ⟨"A", "mentions a", .ch 97⟩

/-- A rule whose detector does not match the text `[97]`. -/
def ruleB : Rule := ⟨"B", "mentions b", .ch 98⟩

/-- A 100-rule registry of which exactly the 29 `ruleA` copies match `[97]`. -/
def bigReg : List Rule := List.replicate 29 ruleA ++ List.replicate 71 ruleB

/-- A rule whose detector (pattern `.*`) matches every text, the empty one
included. Such a detector is expressible in the code's registry format. -/
def matchAllRule : Rule := ⟨"X", "always detected", .star .dot⟩

/-- The first checklist entry duplicated: a registry the code accepts as-is. -/
def dupRule : Rule := ⟨"E6", "door width ≥ 900mm", e6Re⟩

/-- The document of the concrete ten-rule scenario. -/
def scenarioDoc : List Nat := s2n "door width is 1000mm, handrail height 1000mm"

/-- The failure list the scenario is expected to produce: the eight rules
other than E6 and GD3, in registry order. -/
def scenarioFailures : List Failure :=
  [⟨"LCR2", "Missing or non-compliant: ramp slope ≤ 8%"⟩,
   ⟨"PE1", "Missing or non-compliant: path width ≥ 1800mm"⟩,
   ⟨"SPpt", "Missing or non-compliant: accessible toilet available"⟩,
   ⟨"PA1", "Missing or non-compliant: parking within 50m"⟩,
   ⟨"GS", "Missing or non-compliant: stair width ≥ 1200mm"⟩,
   ⟨"PE7", "Missing or non-compliant: no abrupt level changes"⟩,
   ⟨"SPsh", "Missing or non-compliant: shower turning radius ≥1500mm"⟩,
   ⟨"LCH1", "Missing or non-compliant: guardrail height ≥1100mm"⟩]

/-! ### Helper lemmas about the evaluation loop and the matcher -/

/-- The loop of lines 108-114 counts the matching rules and maps the
non-matching ones, in order, to failure entries. -/
theorem evalRules_eq_filter (text : List Nat) (reg : List Rule) :
    evalRules text reg =
      (reg.countP (fun r => reSearch r.regex text),
       (reg.filter fun r => !(reSearch r.regex text)).map mkFailure) := by
  induction reg with
  | nil => rfl
  | cons r rs ih =>
      cases hsr : reSearch r.regex text <;>
        simp [evalRules, ih, hsr, List.countP_cons, List.filter_cons]

theorem countP_add_filter_length (p : Rule → Bool) (reg : List Rule) :
    reg.countP p + (reg.filter fun r => !(p r)).length = reg.length := by
  induction reg with
  | nil => rfl
  | cons r rs ih =>
      cases h : p r <;>
        simp [List.countP_cons, List.filter_cons, h] <;> omega

theorem matchHere_seqFail (r : Regex) (s : List Nat) :
    matchHere (.seq .fail r) s = false := by
  induction s with
  | nil => rfl
  | cons c t ih => simpa [matchHere, derive, nullable] using ih

theorem matchHere_alt (a b : Regex) (s : List Nat) :
    matchHere (.alt a b) s = (matchHere a s || matchHere b s) := by
  induction s generalizing a b with
  | nil => rfl
  | cons c t ih =>
      simp [matchHere, derive, nullable, ih]
      cases nullable a <;> cases nullable b <;>
        simp [Bool.or_assoc, Bool.or_left_comm]

theorem matchHere_seqEps (r : Regex) (s : List Nat) :
    matchHere (.seq .eps r) s = matchHere r s := by
  cases s with
  | nil => simp [matchHere, nullable]
  | cons c t =>
      simp [matchHere, derive, nullable, matchHere_alt, matchHere_seqFail]

/-- A literal regex matches here if the literal is a prefix of the text. -/
theorem matchHere_litRe (w : List Nat) (s : List Nat)
    (h : w.isPrefixOf s = true) : matchHere (litRe w) s = true := by
  induction w generalizing s with
  | nil => cases s <;> simp [litRe, matchHere, nullable]
  | cons a w ih =>
      cases s with
      | nil =>
          simp only [List.isPrefixOf] at h
          exact absurd h (by decide)
      | cons b t =>
          simp only [List.isPrefixOf, Bool.and_eq_true, beq_iff_eq] at h
          obtain ⟨rfl, h2⟩ := h
          simp [litRe, matchHere, derive, nullable, matchHere_seqEps]
          exact ih t h2

/-- A literal regex is found by `re.search` whenever the literal occurs as a
substring. -/
theorem reSearch_litRe (w : List Nat) (s : List Nat)
    (h : containsSub w s = true) : reSearch (litRe w) s = true := by
  induction s with
  | nil =>
      simp [containsSub, List.isEmpty_iff] at h
      subst h
      rfl
  | cons c t ih =>
      simp only [containsSub, Bool.or_eq_true] at h
      rcases h with h | h
      · have hm := matchHere_litRe w (c :: t) h
        simp [reSearch, hm]
      · simp [reSearch, ih h]

theorem reSearch_alt (a b : Regex) (s : List Nat) :
    reSearch (.alt a b) s = (reSearch a s || reSearch b s) := by
  induction s with
  | nil => rfl
  | cons c t ih =>
      simp [reSearch, matchHere_alt, ih]
      cases matchHere a (c :: t) <;> cases matchHere b (c :: t) <;>
        simp [Bool.or_assoc, Bool.or_left_comm]

/-- Exhaustive check of line 117's float arithmetic on every shape the
program can reach: for at most ten rules the truncated float product
agrees with exact integer floor division. -/
theorem pass_rate_small :
    ∀ t, t < 10 → ∀ p, p < t + 2 →
      pass_rate p (t + 1) = some (p * 100 / (t + 1)) := by decide

theorem checklist_length : checklist.length = 10 := rfl

theorem lowerChar_idem (c : Nat) : lowerChar (lowerChar c) = lowerChar c := by
  simp only [lowerChar]
  split <;> first | rfl | (split <;> omega)

theorem lowerText_idem (t : List Nat) : lowerText (lowerText t) = lowerText t := by
  induction t with
  | nil => rfl
  | cons c s ih =>
      simp only [lowerText, List.map_cons] at ih ⊢
      rw [lowerChar_idem]
      exact congrArg _ ih

/-! ### C1 -/

/-- Claim C1 is false as stated: line 117 computes `int((passed / total) * 100)`
in binary64, and on a registry of 100 rules of which 29 match, the float
product is 28.999999999999996, so the code returns 28 where exact integer
truncation of 29 * 100 / 100 gives 29. -/
theorem passRate_float_vs_floor_counterexample :
    (evalRules [97] bigReg).1 = 29 ∧ bigReg.length = 100 ∧
    pass_rate (evalRules [97] bigReg).1 bigReg.length = some 28 ∧
    (evalRules [97] bigReg).1 * 100 / bigReg.length = 29 := by decide

/-- Claim C1 (amended): for every document text and every non-empty registry of at
most ten rules — the program's hardcoded checklist has exactly ten — the
pass rate of line 117 equals floor(passedCount * 100 / totalRules) with
exact integer truncation: 7 of 10 gives 70, and 3 of 7 gives 42, not 43.
For larger registries the binary64 arithmetic can deviate from the exact
floor, as the counterexample with 29 of 100 shows. -/
theorem passRate_is_exact_floor_upto_ten (text : List Nat) (reg : List Rule)
    (h1 : 0 < reg.length) (h2 : reg.length ≤ 10) :
    pass_rate (evalRules text reg).1 reg.length =
      some ((evalRules text reg).1 * 100 / reg.length) := by
  have hp : (evalRules text reg).1 ≤ reg.length := by
    rw [evalRules_eq_filter]
    exact List.countP_le_length _
  have h3 := pass_rate_small (reg.length - 1) (by omega)
    (evalRules text reg).1 (by omega)
  rwa [Nat.sub_add_cancel h1] at h3

theorem passRate_is_exact_floor_upto_ten_witness :
    0 < checklist.length ∧ checklist.length ≤ 10 ∧
    pass_rate (evalRules (s2n "ramp 1:12") checklist).1 checklist.length =
      some ((evalRules (s2n "ramp 1:12") checklist).1 * 100 / checklist.length) :=
  ⟨by decide, by decide,
   passRate_is_exact_floor_upto_ten (s2n "ramp 1:12") checklist (by decide) (by decide)⟩

/-! ### C2 -/

/-- Claim C2: for every document text and registry, the failure list is exactly
the unsatisfied rules in registry (insertion) order, each rendered as its
code plus the description "Missing or non-compliant: " ++ criterion, and
its length is totalRules - passedCount. -/
theorem failures_are_unmatched_rules_in_order (text : List Nat) (reg : List Rule) :
    (evalRules text reg).2 =
      (reg.filter fun r => !(reSearch r.regex text)).map mkFailure ∧
    (evalRules text reg).2.length = reg.length - (evalRules text reg).1 ∧
    ∀ f ∈ (evalRules text reg).2, ∃ r, r ∈ reg ∧ reSearch r.regex text = false ∧
      f.code = r.code ∧ f.description = "Missing or non-compliant: " ++ r.criteria := by
  refine ⟨by rw [evalRules_eq_filter], ?_, ?_⟩
  · rw [evalRules_eq_filter]
    simp only [List.length_map]
    have := countP_add_filter_length (fun r => reSearch r.regex text) reg
    omega
  · intro f hf
    rw [evalRules_eq_filter] at hf
    simp only [List.mem_map, List.mem_filter, Bool.not_eq_true'] at hf
    obtain ⟨r, ⟨hr, hnr⟩, rfl⟩ := hf
    exact ⟨r, hr, hnr, rfl, rfl⟩

/-! ### C3 -/

/-- Claim C3: on the document "door width is 1000mm, handrail height 1000mm" the
fixed checklist passes exactly the door-width rule E6 and the
handrail-height rule GD3, giving pass rate 20 and the remaining eight codes
as failures in registry order, with E6 and GD3 absent from the failures. -/
theorem scenario_two_of_ten :
    analyzeText scenarioDoc = Response.ok 20 scenarioFailures ∧
    "E6" ∉ scenarioFailures.map Failure.code ∧
    "GD3" ∉ scenarioFailures.map Failure.code := by decide

/-! ### C4 -/

/-- Claim C4 is false as stated for arbitrary registries: the registry format can
hold a detector (pattern `.*`) that matches the empty document text, and
then the rule passes, the pass rate is 100 rather than 0, and the failure
list omits that rule instead of containing every rule. -/
theorem empty_text_counterexample :
    (evalRules [] [matchAllRule]).1 = 1 ∧
    (evalRules [] [matchAllRule]).2 = [] ∧
    pass_rate (evalRules [] [matchAllRule]).1 [matchAllRule].length = some 100 := by
  decide

theorem evalRules_empty_text (reg : List Rule)
    (h : ∀ r ∈ reg, reSearch r.regex [] = false) :
    evalRules [] reg = (0, reg.map mkFailure) := by
  induction reg with
  | nil => rfl
  | cons r rs ih =>
      have hr : reSearch r.regex [] = false := h r (List.mem_cons_self r rs)
      have ihh := ih fun x hx => h x (List.mem_cons_of_mem r hx)
      simp [evalRules, hr, ihh]

/-- Claim C4 (amended): for every registry none of whose detectors matches the
empty string — the hardcoded checklist is such a registry — evaluating the
empty document text is not an error: every rule fails, the failure list
contains every rule of the registry in registry order, and for a non-empty
registry the pass rate is 0. -/
theorem empty_text_all_rules_fail (reg : List Rule)
    (h : ∀ r ∈ reg, reSearch r.regex [] = false) :
    evalRules [] reg = (0, reg.map mkFailure) ∧
    (0 < reg.length → pass_rate (evalRules [] reg).1 reg.length = some 0) := by
  refine ⟨evalRules_empty_text reg h, fun hlen => ?_⟩
  rw [evalRules_empty_text reg h]
  have hne : reg ≠ [] := by rintro rfl; simp at hlen
  simp [pass_rate, hne]

theorem empty_text_all_rules_fail_witness :
    (∀ r ∈ checklist, reSearch r.regex [] = false) ∧
    evalRules [] checklist = (0, checklist.map mkFailure) ∧
    (0 < checklist.length →
      pass_rate (evalRules [] checklist).1 checklist.length = some 0) :=
  ⟨by decide,
   (empty_text_all_rules_fail checklist (by decide)).1,
   (empty_text_all_rules_fail checklist (by decide)).2⟩

/-! ### C5 -/

/-- Claim C5: rule matching is case-insensitive: for every document text the
analysis result equals the result on the lower-cased text (line 92
lower-cases before matching, and lower-casing is idempotent); in
particular the document "DOOR WIDTH 900MM" yields the same result as
"door width 900mm". -/
theorem analysis_case_insensitive :
    (∀ t : List Nat, analyzeText t = analyzeText (lowerText t)) ∧
    analyzeText (s2n "DOOR WIDTH 900MM") = analyzeText (s2n "door width 900mm") := by
  refine ⟨fun t => ?_, by decide⟩
  simp only [analyzeText, lowerText_idem]

/-! ### C6 -/

/-- Claim C6 is false as stated: a document whose bytes cannot be decoded makes
the decoding/extraction step raise, the except branch of lines 125-126
catches it, and the handler returns the error response — not a compliance
report with pass rate 0 and all rules failed. -/
theorem malformed_document_counterexample :
    analyze (some "JVBER") (fun _ => Except.error "Not a PDF") =
      Response.error "Not a PDF" := by decide

/-- Claim C6 (amended): the engine degrades gracefully on an empty document — an
extraction that yields empty text produces the well-formed report with
pass rate 0 and all ten rules listed as failed — while a malformed
(undecodable) document is caught at line 125 and produces the error
response with the exception's message, not an uncaught exception. -/
theorem empty_or_malformed_document (s : String)
    (extract : String → Except String (List Nat)) (hs : s ≠ "") :
    (extract s = Except.ok [] →
      analyze (some s) extract = Response.ok 0 (checklist.map mkFailure)) ∧
    ∀ m, extract s = Except.error m →
      analyze (some s) extract = Response.error m := by
  constructor
  · intro hok
    simp only [analyze, if_neg hs, hok]
    decide
  · intro m herr
    simp only [analyze, if_neg hs, herr]

theorem empty_or_malformed_document_witness :
    ("AAAA" ≠ "" ∧
     analyze (some "AAAA") (fun _ => Except.ok []) =
       Response.ok 0 (checklist.map mkFailure)) ∧
    analyze (some "AAAA") (fun _ => Except.error "bad base64") =
      Response.error "bad base64" :=
  ⟨⟨by decide,
    (empty_or_malformed_document "AAAA" (fun _ => Except.ok []) (by decide)).1 rfl⟩,
   (empty_or_malformed_document "AAAA" (fun _ => Except.error "bad base64")
     (by decide)).2 "bad base64" rfl⟩

/-! ### C7 -/

/-- Claim C7 is false as stated: the registry is a plain list literal (lines
95-106) with no construction-time validation, so a registry holding the
same code twice is accepted and served: evaluation returns an ordinary
report listing the duplicated code twice, and no configuration-error path
exists in the code. -/
theorem duplicate_code_counterexample :
    evalRules [] [dupRule, dupRule] =
      (0, [mkFailure dupRule, mkFailure dupRule]) ∧
    pass_rate 0 2 = some 0 := by decide

/-- Claim C7 (amended): registry construction performs no validation of rule
codes: a registry containing a duplicate (or empty) code is neither
rejected nor deduplicated — evaluation serves it as-is, scoring each copy
independently. -/
theorem duplicate_code_registry_served (text : List Nat) (r : Rule) :
    evalRules text [r, r] =
      if reSearch r.regex text then (2, [])
      else (0, [mkFailure r, mkFailure r]) := by
  simp only [evalRules]
  cases h : reSearch r.regex text <;> simp [h]

/-! ### C8 -/

/-- Claim C8: on an input error — missing payload (Python's `if not file_data`
also rejects an empty string) or a payload whose decoding/extraction
raises — the response is the error shape with a message, and the rule
evaluation engine is never invoked: the error constructor carries no pass
rate and no failure list. -/
theorem input_error_no_engine (extract : String → Except String (List Nat)) :
    analyze none extract = Response.error "No file data received." ∧
    analyze (some "") extract = Response.error "No file data received." ∧
    ∀ s m, s ≠ "" → extract s = Except.error m →
      analyze (some s) extract = Response.error m := by
  refine ⟨rfl, rfl, fun s m hs herr => ?_⟩
  simp only [analyze, if_neg hs, herr]

theorem input_error_no_engine_witness :
    analyze none (fun s => Except.ok (s2n s)) =
      Response.error "No file data received." ∧
    ("x" ≠ "" ∧
     analyze (some "x") (fun _ => Except.error "boom") = Response.error "boom") :=
  ⟨(input_error_no_engine (fun s => Except.ok (s2n s))).1,
   by decide,
   (input_error_no_engine (fun _ => Except.error "boom")).2.2 "x" "boom"
     (by decide) rfl⟩

/-! ### C9 -/

/-- Claim C9: the hardcoded checklist has exactly ten rules with pairwise
distinct, non-empty codes, so totalRules is the constant 10, the pass-rate
division is never a division by zero, and on every document text the
analysis returns a report whose pass rate is one of 0, 10, ..., 100. -/
theorem checklist_ten_distinct_rate_in_steps :
    checklist.length = 10 ∧
    (checklist.map Rule.code).Nodup ∧
    (∀ c ∈ checklist.map Rule.code, c ≠ "") ∧
    ∀ text : List Nat, ∃ rate failed,
      analyzeText text = Response.ok rate failed ∧
      rate ∈ [0, 10, 20, 30, 40, 50, 60, 70, 80, 90, 100] := by
  refine ⟨rfl, by decide, by decide, fun text => ?_⟩
  have hp : (evalRules (lowerText text) checklist).1 ≤ 10 := by
    rw [evalRules_eq_filter]
    exact le_trans (List.countP_le_length _) (by rw [checklist_length])
  have hrate : pass_rate (evalRules (lowerText text) checklist).1 10 =
      some ((evalRules (lowerText text) checklist).1 * 100 / 10) :=
    pass_rate_small 9 (by omega) (evalRules (lowerText text) checklist).1 (by omega)
  refine ⟨(evalRules (lowerText text) checklist).1 * 100 / 10,
          (evalRules (lowerText text) checklist).2, ?_, ?_⟩
  · simp only [analyzeText, checklist_length]
    rw [hrate]
  · set p := (evalRules (lowerText text) checklist).1 with hpdef
    interval_cases p <;> decide

/-! ### C10 -/

/-- Claim C10: any document whose lower-cased text contains "toilet", "wc" or
"accessible" as a substring — even inside an unrelated word, with no
toilet mentioned — satisfies rule SPpt, and the code SPpt never appears
among the failure codes. -/
theorem sppt_matches_any_occurrence (text : List Nat)
    (h : (containsSub (s2n "toilet") (lowerText text) ||
          containsSub (s2n "wc") (lowerText text) ||
          containsSub (s2n "accessible") (lowerText text)) = true) :
    reSearch spptRe (lowerText text) = true ∧
    "SPpt" ∉ (evalRules (lowerText text) checklist).2.map Failure.code := by
  have hs : reSearch spptRe (lowerText text) = true := by
    simp only [spptRe, reSearch_alt, Bool.or_eq_true]
    simp only [Bool.or_eq_true] at h
    rcases h with (h | h) | h
    · exact Or.inl (reSearch_litRe _ _ h)
    · exact Or.inr (Or.inl (reSearch_litRe _ _ h))
    · exact Or.inr (Or.inr (reSearch_litRe _ _ h))
  refine ⟨hs, fun hmem => ?_⟩
  rw [evalRules_eq_filter] at hmem
  simp only [List.map_map, List.mem_map, List.mem_filter, Function.comp,
    Bool.not_eq_true'] at hmem
  obtain ⟨r, ⟨hr, hnr⟩, hcode⟩ := hmem
  simp only [checklist, List.mem_cons, List.not_mem_nil, or_false] at hr
  rcases hr with rfl | rfl | rfl | rfl | rfl | rfl | rfl | rfl | rfl | rfl
  all_goals first
    | exact absurd hcode (by decide)
    | (rw [hs] at hnr; exact Bool.noConfusion hnr)

theorem sppt_matches_any_occurrence_witness :
    ((containsSub (s2n "toilet") (lowerText (s2n "Newcastle")) ||
      containsSub (s2n "wc") (lowerText (s2n "Newcastle")) ||
      containsSub (s2n "accessible") (lowerText (s2n "Newcastle"))) = true) ∧
    (reSearch spptRe (lowerText (s2n "Newcastle")) = true ∧
     "SPpt" ∉ (evalRules (lowerText (s2n "Newcastle")) checklist).2.map
       Failure.code) :=
  ⟨by decide, sppt_matches_any_occurrence (s2n "Newcastle") (by decide)⟩
